import Mathlib

/-
  Verification development for src/gemini.py.

  The script is strictly linear:
    load_dotenv()                                       -- line 6
    print("API Key loaded:", os.getenv(K) is not None)  -- line 9
    client = genai.Client(api_key=os.getenv(K))         -- line 12
    response = client.models.generate_content(...)      -- lines 15-18
    print(response.text)                                -- line 20
  We embed it as a five-statement small-step machine over an explicit
  process-environment state, with the remote service abstracted as a
  function parameter.
-/

namespace GeminiScript

/-- Process environment: a partial map from variable names to string values.
`none` means the variable is unset; `os.getenv` returns `None` exactly then. -/
def Env : Type := String → Option String

/-- A parsed `.env` configuration file: an ordered list of KEY=VALUE pairs. -/
def DotenvFile : Type := List (String × String)

/-- First-match lookup of a key in a parsed configuration file. -/
def lookupKey (file : DotenvFile) (k : String) : Option String :=
  match file with
  | [] => none
  | (k', v) :: rest => if k = k' then some v else lookupKey rest k

/-- Modelled from the spec: `load_dotenv` of the python-dotenv library, which is
not part of src/. Per the spec, if the file is present it "parses simple
KEY=VALUE lines and inserts each into the process-wide Environment, only for
keys not already set by the host process", and "No error is raised if the file
is missing; this is treated as a no-op". A missing file is `none`. -/
def load_dotenv (file : Option DotenvFile) (env : Env) : Env :=
  match file with
  | none => env
  | some kvs => fun k =>
      match env k with
      | some v => some v
      | none => lookupKey kvs k

/-- The one environment variable the script reads (src/gemini.py lines 9, 12). -/
def apiKeyVar : String := "GEMINI_API_KEY"

/-- The literal model identifier passed to generate_content (src/gemini.py line 16). -/
def modelLiteral : String := "gemini-2.0-flash"

/-- The literal prompt passed to generate_content (src/gemini.py line 17). -/
def promptLiteral : String := "Say hello world in a creative way"

/-- The client handle: an opaque object holding the credential it was built with. -/
structure Client where
  api_key : Option String
deriving DecidableEq

/-- Modelled from the spec: `genai.Client` construction (the google-genai SDK is
not part of src/). Per the spec it is "a single operation, construct, taking the
Credential string as input (may be null/empty) and returning a Client Handle";
it "performs no network I/O and does not validate the credential". It is a
total function of the credential alone. -/
def Client.construct (key : Option String) : Client := ⟨key⟩

/-- The response object returned by the remote call; the script consumes only
its textual field (src/gemini.py line 20). -/
structure Response where
  text : String
deriving DecidableEq

/-- The remote generation service, abstracted as a function from the client
credential, model identifier and prompt contents to either a response or a
service-reported error. -/
def RemoteService : Type := Option String → String → String → Except String Response

/-- Externally observable actions of the script. -/
inductive Event where
  | print (line : String)
  | constructClient (key : Option String)
  | generateRequest (key : Option String) (model contents : String)
deriving DecidableEq

/-- The line produced by `print("API Key loaded:", b)` where `b` is
`os.getenv("GEMINI_API_KEY") is not None`: Python renders the two possible
lines as below. -/
def keyLine (key : Option String) : String :=
  if key.isSome then "API Key loaded: True" else "API Key loaded: False"

/-- Machine state: the process environment, a program counter over the five
statements of the script, the trace of observable events, the bound variables
`client` and `response`, and the exit status once the process has terminated. -/
structure State where
  env : Env
  pc : Nat
  events : List Event
  client : Option Client
  response : Option Response
  exitCode : Option Nat

/-- Initial state: the inherited host environment, nothing executed yet. -/
def initState (hostEnv : Env) : State :=
  ⟨hostEnv, 0, [], none, none, none⟩

/-- One statement of src/gemini.py. pc 0 is `load_dotenv()`, pc 1 the
diagnostic print, pc 2 the client construction, pc 3 the generate call
(an uncaught service error terminates the process with exit status 1,
Python's uncaught-exception exit code), pc 4 `print(response.text)`;
pc 5 is the terminated state. -/
def step (file : Option DotenvFile) (svc : RemoteService) (s : State) : State :=
  match s.pc with
  | 0 => { s with env := load_dotenv file s.env, pc := 1 }
  | 1 => { s with events := s.events ++ [.print (keyLine (s.env apiKeyVar))], pc := 2 }
  | 2 => { s with events := s.events ++ [.constructClient (s.env apiKeyVar)],
                  client := some (Client.construct (s.env apiKeyVar)), pc := 3 }
  | 3 =>
      match s.client with
      | some c =>
          let s' := { s with
            events := s.events ++ [Event.generateRequest c.api_key modelLiteral promptLiteral] }
          match svc c.api_key modelLiteral promptLiteral with
          | .ok r => { s' with response := some r, pc := 4 }
          | .error _ => { s' with exitCode := some 1, pc := 5 }
      | none => { s with exitCode := some 1, pc := 5 }
  | 4 =>
      match s.response with
      | some r => { s with events := s.events ++ [.print r.text], exitCode := some 0, pc := 5 }
      | none => { s with exitCode := some 1, pc := 5 }
  | _ => s

/-- The state after executing the first `n` statements of the script. -/
def run (file : Option DotenvFile) (svc : RemoteService) (hostEnv : Env) : Nat → State
  | 0 => initState hostEnv
  | n + 1 => step file svc (run file svc hostEnv n)

/-- The terminal state of the script: at most five statements execute. -/
def finalState (file : Option DotenvFile) (svc : RemoteService) (hostEnv : Env) : State :=
  run file svc hostEnv 5

/-- The lines the script wrote to standard output, in order. -/
def stdoutOf (s : State) : List String :=
  s.events.filterMap fun e =>
    match e with
    | .print l => some l
    | _ => none

/-- An empty host environment. -/
def envEmpty : Env := fun _ => none

/-- A host environment with the API key set to a non-empty string. -/
def envWithKey : Env := fun k => if k = apiKeyVar then some "test-key" else none

/-- A host environment with the API key set to the empty string. -/
def envEmptyKey : Env := fun k => if k = apiKeyVar then some "" else none

/-- A remote service that always succeeds with a fixed text. -/
def svcOk : RemoteService := fun _ _ _ => .ok ⟨"Hello, world!"⟩

/-- A remote service that always fails with an authentication error. -/
def svcFail : RemoteService := fun _ _ _ => .error "401 UNAUTHENTICATED"

/-- Closed form of the terminal state, split on the service outcome. -/
theorem finalState_eq (file : Option DotenvFile) (svc : RemoteService) (hostEnv : Env) :
    finalState file svc hostEnv =
      match svc (load_dotenv file hostEnv apiKeyVar) modelLiteral promptLiteral with
      | .ok r =>
          ⟨load_dotenv file hostEnv, 5,
            [.print (keyLine (load_dotenv file hostEnv apiKeyVar)),
             .constructClient (load_dotenv file hostEnv apiKeyVar),
             .generateRequest (load_dotenv file hostEnv apiKeyVar) modelLiteral promptLiteral,
             .print r.text],
            some (Client.construct (load_dotenv file hostEnv apiKeyVar)), some r, some 0⟩
      | .error _ =>
          ⟨load_dotenv file hostEnv, 5,
            [.print (keyLine (load_dotenv file hostEnv apiKeyVar)),
             .constructClient (load_dotenv file hostEnv apiKeyVar),
             .generateRequest (load_dotenv file hostEnv apiKeyVar) modelLiteral promptLiteral],
            some (Client.construct (load_dotenv file hostEnv apiKeyVar)), none, some 1⟩ := by
  cases h : svc (load_dotenv file hostEnv apiKeyVar) modelLiteral promptLiteral with
  | ok r => simp [finalState, run, step, initState, Client.construct, h]
  | error e => simp [finalState, run, step, initState, Client.construct, h]

/-- The standard-output lines of a complete execution, split on the service
outcome: the diagnostic line, then the response text on success only. -/
theorem stdoutOf_finalState (file : Option DotenvFile) (svc : RemoteService) (hostEnv : Env) :
    stdoutOf (finalState file svc hostEnv) =
      match svc (load_dotenv file hostEnv apiKeyVar) modelLiteral promptLiteral with
      | .ok r => [keyLine (load_dotenv file hostEnv apiKeyVar), r.text]
      | .error _ => [keyLine (load_dotenv file hostEnv apiKeyVar)] := by
  rw [finalState_eq]
  cases h : svc (load_dotenv file hostEnv apiKeyVar) modelLiteral promptLiteral <;> rfl

/-- C1: The credential check is non-enforcing: for every configuration file,
host environment and remote-service behaviour, the execution trace starts with
the diagnostic print and then, unconditionally, the client construction and the
generate request — the presence check has no effect on control flow. -/
theorem credential_check_non_enforcing (file : Option DotenvFile) (hostEnv : Env)
    (svc : RemoteService) :
    ∃ rest : List Event,
      (finalState file svc hostEnv).events =
        Event.print (keyLine (load_dotenv file hostEnv apiKeyVar)) ::
        Event.constructClient (load_dotenv file hostEnv apiKeyVar) ::
        Event.generateRequest (load_dotenv file hostEnv apiKeyVar) modelLiteral promptLiteral ::
        rest := by
  rw [finalState_eq]
  cases h : svc (load_dotenv file hostEnv apiKeyVar) modelLiteral promptLiteral with
  | ok r => exact ⟨[Event.print r.text], rfl⟩
  | error e => exact ⟨[], rfl⟩

/-- C2: Credential-presence reporting: if the GEMINI_API_KEY variable is set in
the loaded environment the first stdout line reports True, and if it is unset
the first line reports False. -/
theorem credential_presence_reporting (file : Option DotenvFile) (hostEnv : Env)
    (svc : RemoteService) :
    ((load_dotenv file hostEnv apiKeyVar).isSome = true →
      (stdoutOf (finalState file svc hostEnv)).head? = some "API Key loaded: True") ∧
    ((load_dotenv file hostEnv apiKeyVar).isSome = false →
      (stdoutOf (finalState file svc hostEnv)).head? = some "API Key loaded: False") := by
  rw [stdoutOf_finalState]
  cases h : svc (load_dotenv file hostEnv apiKeyVar) modelLiteral promptLiteral <;>
    cases hk : load_dotenv file hostEnv apiKeyVar <;>
    simp [keyLine]

/-- C2 witness: concrete environments with the key present and absent. -/
theorem credential_presence_reporting_witness :
    ((load_dotenv none envWithKey apiKeyVar).isSome = true ∧
      (stdoutOf (finalState none svcOk envWithKey)).head? = some "API Key loaded: True") ∧
    ((load_dotenv none envEmpty apiKeyVar).isSome = false ∧
      (stdoutOf (finalState none svcFail envEmpty)).head? = some "API Key loaded: False") :=
  ⟨⟨by decide, (credential_presence_reporting none envWithKey svcOk).1 (by decide)⟩,
   ⟨by decide, (credential_presence_reporting none envEmpty svcFail).2 (by decide)⟩⟩

/-- C3: Failure propagation: if the remote generate call reports an error, the
process terminates with a non-zero exit status and standard output holds the
diagnostic line only — no response-text line. -/
theorem failure_propagation (file : Option DotenvFile) (hostEnv : Env) (svc : RemoteService)
    (e : String)
    (h : svc (load_dotenv file hostEnv apiKeyVar) modelLiteral promptLiteral = Except.error e) :
    (finalState file svc hostEnv).exitCode = some 1 ∧
    stdoutOf (finalState file svc hostEnv) = [keyLine (load_dotenv file hostEnv apiKeyVar)] := by
  rw [finalState_eq, h]
  exact ⟨rfl, rfl⟩

/-- C3 witness: a service that always fails with an authentication error. -/
theorem failure_propagation_witness :
    (finalState none svcFail envEmpty).exitCode = some 1 ∧
    stdoutOf (finalState none svcFail envEmpty) = [keyLine (load_dotenv none envEmpty apiKeyVar)] :=
  failure_propagation none envEmpty svcFail "401 UNAUTHENTICATED" rfl

/-- C4: Client construction never fails: for every credential, including the
absent and the empty one, construction returns a client handle carrying exactly
that credential, with no validation and no error. -/
theorem client_construct_never_fails (key : Option String) :
    ∃ c : Client, Client.construct key = c ∧ c.api_key = key :=
  ⟨⟨key⟩, rfl, rfl⟩

/-- C5: Fixed-parameter request: every generate request the script ever issues
carries exactly the literal model identifier and prompt contents; no input can
alter them. -/
theorem fixed_request_parameters (file : Option DotenvFile) (hostEnv : Env)
    (svc : RemoteService) (k : Option String) (m p : String)
    (h : Event.generateRequest k m p ∈ (finalState file svc hostEnv).events) :
    m = "gemini-2.0-flash" ∧ p = "Say hello world in a creative way" := by
  rw [finalState_eq] at h
  revert h
  cases hs : svc (load_dotenv file hostEnv apiKeyVar) modelLiteral promptLiteral <;>
    intro h <;>
    simp [modelLiteral, promptLiteral] at h <;>
    exact ⟨h.2.1, h.2.2⟩

/-- C5 witness: the request event of a concrete successful run. -/
theorem fixed_request_parameters_witness :
    Event.generateRequest (some "test-key") "gemini-2.0-flash"
        "Say hello world in a creative way" ∈ (finalState none svcOk envWithKey).events ∧
    ("gemini-2.0-flash" = "gemini-2.0-flash" ∧
      "Say hello world in a creative way" = "Say hello world in a creative way") :=
  ⟨by decide,
   fixed_request_parameters none envWithKey svcOk (some "test-key") "gemini-2.0-flash"
     "Say hello world in a creative way" (by decide)⟩

/-- C6: Successful-call output: if the remote call returns a response with text
field t, standard output is exactly two lines — the credential diagnostic then
t — and the process exits with status 0. -/
theorem successful_call_output (file : Option DotenvFile) (hostEnv : Env) (svc : RemoteService)
    (r : Response)
    (h : svc (load_dotenv file hostEnv apiKeyVar) modelLiteral promptLiteral = Except.ok r) :
    stdoutOf (finalState file svc hostEnv) =
      [keyLine (load_dotenv file hostEnv apiKeyVar), r.text] ∧
    (finalState file svc hostEnv).exitCode = some 0 := by
  rw [finalState_eq, h]
  exact ⟨rfl, rfl⟩

/-- C6 witness: a service returning a concrete text. -/
theorem successful_call_output_witness :
    stdoutOf (finalState none svcOk envWithKey) =
      [keyLine (load_dotenv none envWithKey apiKeyVar), "Hello, world!"] ∧
    (finalState none svcOk envWithKey).exitCode = some 0 :=
  successful_call_output none envWithKey svcOk ⟨"Hello, world!"⟩ rfl

/-- C7: Missing-file tolerance: loading an absent configuration file is a
no-op on the environment, and the credential check still runs and reports from
the host environment alone. -/
theorem missing_file_tolerance (hostEnv : Env) (svc : RemoteService) :
    load_dotenv none hostEnv = hostEnv ∧
    (stdoutOf (finalState none svc hostEnv)).head? = some (keyLine (hostEnv apiKeyVar)) := by
  refine ⟨rfl, ?_⟩
  rw [stdoutOf_finalState]
  cases h : svc (load_dotenv none hostEnv apiKeyVar) modelLiteral promptLiteral <;> rfl

/-- C8: Config-load idempotence: loading the configuration file twice yields
the same environment as loading it once. -/
theorem config_load_idempotent (file : Option DotenvFile) (env : Env) :
    load_dotenv file (load_dotenv file env) = load_dotenv file env := by
  cases file with
  | none => rfl
  | some kvs =>
    funext k
    simp only [load_dotenv]
    cases h : env k with
    | some v => simp [h]
    | none => cases h2 : lookupKey kvs k <;> simp [h, h2]

/-- After the configuration-load statement, no statement writes the
environment. -/
theorem step_env_stable (file : Option DotenvFile) (svc : RemoteService) (s : State)
    (h : s.pc ≠ 0) : (step file svc s).env = s.env := by
  rcases s with ⟨env, pc, events, client, response, exitCode⟩
  rcases pc with _ | _ | _ | _ | _ | n
  · exact absurd rfl h
  · rfl
  · rfl
  · cases client with
    | none => rfl
    | some c => cases hs : svc c.api_key modelLiteral promptLiteral <;> simp [step, hs]
  · cases response <;> rfl
  · rfl

/-- No statement ever returns control to the configuration-load statement. -/
theorem step_pc_stable (file : Option DotenvFile) (svc : RemoteService) (s : State)
    (h : s.pc ≠ 0) : (step file svc s).pc ≠ 0 := by
  rcases s with ⟨env, pc, events, client, response, exitCode⟩
  rcases pc with _ | _ | _ | _ | _ | n
  · exact absurd rfl h
  · simp [step]
  · simp [step]
  · cases client with
    | none => simp [step]
    | some c => cases hs : svc c.api_key modelLiteral promptLiteral <;> simp [step, hs]
  · cases response <;> simp [step]
  · simp [step]

/-- From the first statement onwards the program counter never revisits the
load statement and the environment stays exactly as the load left it. -/
theorem run_pc_env (file : Option DotenvFile) (svc : RemoteService) (hostEnv : Env) :
    ∀ n, (run file svc hostEnv (n + 1)).pc ≠ 0 ∧
      (run file svc hostEnv (n + 1)).env = load_dotenv file hostEnv := by
  intro n
  induction n with
  | zero => exact ⟨one_ne_zero, rfl⟩
  | succ m ih =>
    refine ⟨step_pc_stable file svc _ ih.1, ?_⟩
    rw [show run file svc hostEnv (m + 2) = step file svc (run file svc hostEnv (m + 1)) from rfl,
      step_env_stable file svc _ ih.1]
    exact ih.2

/-- C9: Environment write-once invariant: the environment is written only by
the startup configuration load — every later state carries the loaded
environment unchanged — so the presence-check read (executed from the state
after one statement) and the constructor read (after two statements) of
GEMINI_API_KEY return the same value. -/
theorem env_write_once (file : Option DotenvFile) (svc : RemoteService) (hostEnv : Env) :
    (∀ n, 1 ≤ n → (run file svc hostEnv n).env = load_dotenv file hostEnv) ∧
    (run file svc hostEnv 1).env apiKeyVar = (run file svc hostEnv 2).env apiKeyVar := by
  constructor
  · intro n hn
    obtain ⟨m, rfl⟩ := Nat.exists_eq_add_of_le hn
    rw [Nat.add_comm]
    exact (run_pc_env file svc hostEnv m).2
  · have h1 : (run file svc hostEnv 1).env = load_dotenv file hostEnv :=
      (run_pc_env file svc hostEnv 0).2
    have h2 : (run file svc hostEnv 2).env = load_dotenv file hostEnv :=
      (run_pc_env file svc hostEnv 1).2
    rw [h1, h2]

/-- C9 witness: a concrete run, evaluated three statements in. -/
theorem env_write_once_witness :
    (1 ≤ 3 ∧ (run none svcFail envEmpty 3).env = load_dotenv none envEmpty) ∧
    (run none svcFail envEmpty 1).env apiKeyVar = (run none svcFail envEmpty 2).env apiKeyVar :=
  ⟨⟨by decide, (env_write_once none svcFail envEmpty).1 3 (by decide)⟩,
   (env_write_once none svcFail envEmpty).2⟩

/-- C10: Empty-string credential edge case: if GEMINI_API_KEY is set to the
empty string in the loaded environment, the diagnostic line reports True, the
client is constructed with the empty string, and the generate request is still
issued. -/
theorem empty_string_credential (file : Option DotenvFile) (hostEnv : Env)
    (svc : RemoteService)
    (h : load_dotenv file hostEnv apiKeyVar = some "") :
    (stdoutOf (finalState file svc hostEnv)).head? = some "API Key loaded: True" ∧
    Event.constructClient (some "") ∈ (finalState file svc hostEnv).events ∧
    Event.generateRequest (some "") modelLiteral promptLiteral ∈
      (finalState file svc hostEnv).events := by
  rw [stdoutOf_finalState, finalState_eq, h]
  cases hs : svc (some "") modelLiteral promptLiteral <;> simp [keyLine]

/-- C10 witness: a host environment mapping the key to the empty string. -/
theorem empty_string_credential_witness :
    load_dotenv none envEmptyKey apiKeyVar = some "" ∧
    ((stdoutOf (finalState none svcFail envEmptyKey)).head? = some "API Key loaded: True" ∧
     Event.constructClient (some "") ∈ (finalState none svcFail envEmptyKey).events ∧
     Event.generateRequest (some "") modelLiteral promptLiteral ∈
       (finalState none svcFail envEmptyKey).events) :=
  ⟨by decide, empty_string_credential none envEmptyKey svcFail (by decide)⟩

end GeminiScript
